import Mathlib

/-!
Shallow embedding of `src/chubbPresent.py` (class `AssistantBot`), covering
the concurrency-coordination core: the dispatcher `handle_message`, the
worker `stream_events`, the synchronous sub-worker `stream_follow_up`, and
the display poller `update_gui`.  Queue messages are modelled exactly as in
the source: `message_queue` holds Python strings or the `None` sentinel,
hence `Option String`; `done_queue` holds originator handles.
-/

/-- Originator handle (`update` object): opaque, only routed back; modelled
as a natural number identifier. -/
abbrev Upd := Nat

/-- Model of Python `str.startswith` on character lists: is the first list a
prefix of the second. -/
def listPrefixEq : List Char → List Char → Bool
| [], _ => true
| _ :: _, [] => false
| p :: ps, c :: cs => p == c && listPrefixEq ps cs

/-- Python `s.startswith(pat)`. -/
def pyStartsWith (s pat : String) : Bool :=
  listPrefixEq pat.data s.data

/-- Auxiliary for substring search: does `pat` occur in `s` at some
position. -/
def containsAt (pat : List Char) : List Char → Bool
| [] => listPrefixEq pat []
| c :: cs => listPrefixEq pat (c :: cs) || containsAt pat cs

/-- Python `pat in s` (substring containment). -/
def pyContains (s pat : String) : Bool :=
  containsAt pat.data s.data

/-- The separator string pushed at line 76 of the source before any primary
content: `f"\n\nAnswers for {user_message}:\n…\n\n"`. -/
def primarySeparator (userMessage : String) : String :=
  "\n\nAnswers for " ++ userMessage ++ ":\n______________________________________\n\n"

/-- The separator string pushed at line 124 announcing the follow-up
section. -/
def followUpSeparator : String :=
  "\n\nPossible Follow-up Questions and Answers:\n______________________________________\n\n"

/-- The error string pushed by `stream_events`'s `except` handler
(line 98): `f"An error occurred: {str(e)}"`. -/
def errorChunk (e : String) : String :=
  "An error occurred: " ++ e

/-- The error string pushed by `stream_follow_up`'s `except` handler
(line 146): `f"\nAn error occurred while generating follow-up: {str(e)}\n"`. -/
def followUpErrorChunk (e : String) : String :=
  "\nAn error occurred while generating follow-up: " ++ e ++ "\n"

/-- A content block of a `thread.message.delta` event (line 83-87): only
blocks with `type == 'text'` contribute; others are skipped. -/
inductive Block
| text (value : String)
| other
deriving DecidableEq, Repr

/-- Environment model of the secondary (follow-up) completion call
(lines 127-143): either `chat.completions.create` raises, or it yields a
list of chunk contents (`none` = chunk whose delta has no content) and then
optionally raises mid-iteration. -/
inductive FollowUp
| createErr (err : String)
| stream (chunks : List (Option String)) (midErr : Option String)
deriving DecidableEq, Repr

/-- Environment model of one event of the primary stream (lines 79-94).  A
`messageCompleted` event carries the environment's behaviour for the
follow-up call that `stream_events` makes at that point. -/
inductive SEvent
| messageDelta (content : List Block)
| messageCompleted (fu : FollowUp)
| otherEvent
deriving DecidableEq, Repr

/-- Environment model of the primary streaming call (line 66): either
`create_and_run` raises before any event, or it yields `events` and then
optionally raises mid-iteration after the last of them. -/
inductive Primary
| createErr (err : String)
| stream (events : List SEvent) (midErr : Option String)
deriving DecidableEq, Repr

/-- The chunk contents actually pushed by the follow-up loop
(lines 139-143): a chunk is pushed iff its delta `content` is truthy, which
skips both missing content and the empty string. -/
def chunkPushes : List (Option String) → List String
| [] => []
| none :: rest => chunkPushes rest
| some s :: rest => if s = "" then chunkPushes rest else s :: chunkPushes rest

/-- `stream_follow_up(user_message, assistant_response)` (lines 102-146),
as the list of strings it puts on `message_queue`, in order.  The separator
(line 124) is pushed before the create call, so it appears even when the
call raises; the `except` handler pushes exactly one error string and the
function returns normally. -/
def stream_follow_up (userMessage assistantResponse : String)
    (fu : FollowUp) : List String :=
  match fu with
  | FollowUp.createErr e => [followUpSeparator, followUpErrorChunk e]
  | FollowUp.stream chunks midErr =>
      followUpSeparator :: chunkPushes chunks ++
        (match midErr with
         | some e => [followUpErrorChunk e]
         | none => [])

/-- Text values of the `type == 'text'` blocks of one delta event, in
order (lines 83-87). -/
def deltaTexts (content : List Block) : List String :=
  content.filterMap fun b =>
    match b with
    | Block.text v => some v
    | Block.other => none

/-- All primary text fragments pushed while processing a list of stream
events that ends before any `completed` handling matters. -/
def primaryTexts : List SEvent → List String
| [] => []
| SEvent.messageDelta c :: rest => deltaTexts c ++ primaryTexts rest
| _ :: rest => primaryTexts rest

/-- Left-to-right concatenation, the accumulator discipline of
`assistant_response += text_value` (line 86). -/
def concatAll : List String → String
| [] => ""
| s :: rest => s ++ concatAll rest

/-- One atomic observable action of a worker thread: writing the
`is_processing` flag, putting on `message_queue`, or putting on
`done_queue`. -/
inductive Act
| setGate (b : Bool)
| push (m : Option String)
| pushDone (u : Upd)
deriving DecidableEq, Repr

/-- Actions performed by the event loop of `stream_events` (lines 79-94),
threading the `assistant_response` accumulator.  A `thread.message.delta`
event pushes each text block's value; a `thread.message.completed` event
runs `stream_follow_up` to completion (spawn-and-join, lines 90-92), then
pushes the `None` sentinel and the done signal; any other event is
ignored. -/
def eventActions (userMessage : String) (upd : Upd) :
    List SEvent → String → List Act
| [], _ => []
| SEvent.messageDelta content :: rest, acc =>
    ((deltaTexts content).map fun t => Act.push (some t)) ++
      eventActions userMessage upd rest (acc ++ concatAll (deltaTexts content))
| SEvent.messageCompleted fu :: rest, acc =>
    ((stream_follow_up userMessage acc fu).map fun s => Act.push (some s)) ++
      [Act.push none, Act.pushDone upd] ++
      eventActions userMessage upd rest acc
| SEvent.otherEvent :: rest, acc => eventActions userMessage upd rest acc

/-- The full action trace of one run of
`stream_events(user_message, update)` (lines 53-100): set the gate
(line 62), then — unless `create_and_run` raised — push the separator
(line 76) and process the events; an exception mid-iteration is caught and
converted into one error push (line 98); the `finally` clause clears the
gate (line 100) as the last action of every path. -/
def workerProgram (userMessage : String) (upd : Upd) (p : Primary) :
    List Act :=
  Act.setGate true ::
    (match p with
     | Primary.createErr e => [Act.push (some (errorChunk e))]
     | Primary.stream events midErr =>
         Act.push (some (primarySeparator userMessage)) ::
           eventActions userMessage upd events "" ++
           (match midErr with
            | some e => [Act.push (some (errorChunk e))]
            | none => [])) ++
    [Act.setGate false]

/-- The `message_queue` puts of an action trace, in order. -/
def pushesOf : List Act → List (Option String)
| [] => []
| Act.push m :: rest => m :: pushesOf rest
| _ :: rest => pushesOf rest

/-- The `done_queue` puts of an action trace, in order. -/
def donesOf : List Act → List Upd
| [] => []
| Act.pushDone u :: rest => u :: donesOf rest
| _ :: rest => donesOf rest

/-- The writes to the `is_processing` flag of an action trace, in order. -/
def gateWrites : List Act → List Bool
| [] => []
| Act.setGate b :: rest => b :: gateWrites rest
| _ :: rest => gateWrites rest

/-- The externally visible result of one `stream_events` run: contents put
on the two queues. -/
structure WorkerResult where
  pushes : List (Option String)
  done : List Upd
deriving DecidableEq, Repr

/-- `stream_events` summarised by its queue outputs. -/
def stream_events (userMessage : String) (upd : Upd) (p : Primary) :
    WorkerResult :=
  { pushes := pushesOf (workerProgram userMessage upd p),
    done := donesOf (workerProgram userMessage upd p) }

/-- Does a list of primary events contain a `thread.message.completed`
event. -/
def hasCompleted : List SEvent → Bool
| [] => false
| SEvent.messageCompleted _ :: _ => true
| _ :: rest => hasCompleted rest

/-- Outbound replies sent by `handle_message` on the request-handling
scheduler: the busy rejection (line 257) or the acceptance acknowledgment
(line 271), each routed to one originator. -/
inductive Reply
| stillProcessing (u : Upd)
| ack (u : Upd)
deriving DecidableEq, Repr

/-- Global shared state of the process plus the multiset of live worker
threads (each a list of remaining atomic actions). -/
structure Config where
  gate : Bool
  msgq : List (Option String)
  doneq : List Upd
  replies : List Reply
  threads : List (List Act)
deriving DecidableEq, Repr

/-- Effect of one atomic worker action on the shared state. -/
def execAct (c : Config) (a : Act) : Config :=
  match a with
  | Act.setGate b => { c with gate := b }
  | Act.push m => { c with msgq := c.msgq ++ [m] }
  | Act.pushDone u => { c with doneq := c.doneq ++ [u] }

/-- `handle_message` (lines 247-271) run atomically on the event loop (it
has no await point between the gate check and `start_streaming`): if
`is_processing` is set, reply "still processing" and return without
spawning anything; otherwise spawn the worker thread for the message and
acknowledge.  `p` is the environment's behaviour for the primary call the
spawned worker will make. -/
def dispatch (c : Config) (m : String) (u : Upd) (p : Primary) : Config :=
  if c.gate then
    { c with replies := c.replies ++ [Reply.stillProcessing u] }
  else
    { c with threads := c.threads ++ [workerProgram m u p],
             replies := c.replies ++ [Reply.ack u] }

/-- Interleaving small-step semantics: either an inbound message is
dispatched on the event loop, or some live worker thread executes its next
atomic action. -/
inductive Step : Config → Config → Prop
| inbound (c : Config) (m : String) (u : Upd) (p : Primary) :
    Step c (dispatch c m u p)
| worker (c : Config) (i : Nat) (a : Act) (rest : List Act)
    (h : c.threads[i]? = some (a :: rest)) :
    Step c { execAct c a with threads := c.threads.set i rest }

/-- Initial state: gate free, queues empty, no threads (lines 45-50). -/
def initConfig : Config :=
  { gate := false, msgq := [], doneq := [], replies := [], threads := [] }

/-- Configurations reachable from process start. -/
def Reachable (c : Config) : Prop :=
  Relation.ReflTransGen Step initConfig c

/-- A schedule entry: deliver an inbound message, or give thread `i` its
next step. -/
inductive Sched
| inbound (m : String) (u : Upd) (p : Primary)
| worker (i : Nat)
deriving DecidableEq, Repr

/-- Deterministic executor of a schedule; `none` when a worker step names a
thread with no remaining action. -/
def runSched : Config → List Sched → Option Config
| c, [] => some c
| c, Sched.inbound m u p :: rest => runSched (dispatch c m u p) rest
| c, Sched.worker i :: rest =>
    match c.threads[i]? with
    | some (a :: t) =>
        runSched { execAct c a with threads := c.threads.set i t } rest
    | _ => none

/-- A live thread that was admitted past the gate and has not yet executed
its release still holds the gate. -/
def holdsGate (t : List Act) : Bool :=
  t.any fun a =>
    match a with
    | Act.setGate false => true
    | _ => false

/-- Number of workers currently holding the gate. -/
def gateHolders (c : Config) : Nat :=
  (c.threads.filter holdsGate).length

/-- State of the Tkinter surface as read by `update_gui`:
`textDisplaySome` models `self.text_display` being non-`None`, `root`
models `self.root` (`none` = `None`, `some w` = a root whose
`winfo_exists()` returns `w`). -/
structure Gui where
  textDisplaySome : Bool
  root : Option Bool
deriving DecidableEq, Repr

/-- Python `self.root and self.root.winfo_exists()`. -/
def rootAlive (g : Gui) : Bool :=
  match g.root with
  | some w => w
  | none => false

/-- Python `self.text_display and self.root and self.root.winfo_exists()`,
the guard of every insert in `update_gui` (lines 172, 179). -/
def canRender (g : Gui) : Bool :=
  g.textDisplaySome && rootAlive g

/-- One insertion into the scrolled-text widget. -/
inductive Render
| errorText (msg : String)
| separatorTagged (msg : String)
| plainText (msg : String)
deriving DecidableEq, Repr

/-- The exact string inserted for a render: the error branch inserts
`f"\nERROR: {msg}\n"` (line 174); the other branches insert the message
itself (lines 183, 186). -/
def insertedText : Render → String
| Render.errorText m => "\nERROR: " ++ m ++ "\n"
| Render.separatorTagged m => m
| Render.plainText m => m

/-- The separator-style test of line 181:
`"Answers for" in msg or "Possible Follow-up Questions and Answers" in msg`. -/
def isSeparatorStyled (msg : String) : Bool :=
  pyContains msg "Answers for" ||
    pyContains msg "Possible Follow-up Questions and Answers"

/-- The drain loop of `update_gui` (lines 165-189): repeatedly
`get_nowait`; `None` breaks; a message starting with `"An error occurred:"`
renders with the ERROR prefix (when the widget and window exist) and
breaks; any other message renders (separator-tagged or plain, when the
widget and window exist) and the loop continues; an empty queue ends the
loop.  Returns the queue contents left undrained and the renders
performed. -/
def drainLoop (g : Gui) : List (Option String) → List (Option String) × List Render
| [] => ([], [])
| none :: rest => (rest, [])
| some msg :: rest =>
    if pyStartsWith msg "An error occurred:" then
      (rest, if canRender g then [Render.errorText msg] else [])
    else
      ((drainLoop g rest).1,
        (if canRender g then
          [if isSeparatorStyled msg then Render.separatorTagged msg
           else Render.plainText msg]
         else []) ++ (drainLoop g rest).2)

/-- One full polling cycle of `update_gui`. -/
structure GuiPass where
  remaining : List (Option String)
  renders : List Render
  reschedule : Option Nat
deriving DecidableEq, Repr

/-- `update_gui` (lines 159-192): run the drain loop, then in `finally`
reschedule itself after 100 ms iff `self.root and
self.root.winfo_exists()`. -/
def update_gui (g : Gui) (q : List (Option String)) : GuiPass :=
  { remaining := (drainLoop g q).1,
    renders := (drainLoop g q).2,
    reschedule := if rootAlive g then some 100 else none }

/-- Queue elements that terminate a drain pass early: the `None` sentinel
and primary-error strings. -/
def isStopMsg : Option String → Bool
| none => true
| some m => pyStartsWith m "An error occurred:"

/-- Primary behaviour used in the gate-race schedule: one delta then no
completion (its tail is irrelevant to the race). -/
def raceP : Primary := Primary.stream [SEvent.messageDelta [Block.text "a"]] none

/-- Schedule exhibiting the gate race: two inbound messages are dispatched
before the first spawned worker has executed its first instruction (the
`is_processing = True` of line 62 runs on the worker thread, after the
dispatcher's check on line 256), then the two workers interleave. -/
def raceSched : List Sched :=
  [Sched.inbound "q1" 1 raceP, Sched.inbound "q2" 2 raceP,
   Sched.worker 0, Sched.worker 0, Sched.worker 1, Sched.worker 1,
   Sched.worker 0]

/-- The configuration reached by `raceSched`. -/
def raceConfig : Config :=
  { gate := true,
    msgq := [some (primarySeparator "q1"), some (primarySeparator "q2"), some "a"],
    doneq := [],
    replies := [Reply.ack 1, Reply.ack 2],
    threads := [[Act.setGate false], [Act.push (some "a"), Act.setGate false]] }

/-- A configuration with the gate held, used to instantiate rejection. -/
def busyConfig : Config :=
  { gate := true, msgq := [], doneq := [], replies := [], threads := [] }

/-- A live surface: `text_display` set, root window existing. -/
def aliveGui : Gui := { textDisplaySome := true, root := some true }


/-! Helper lemmas about the embedding. -/

theorem stream_follow_up_resp (m r r' : String) (fu : FollowUp) :
    stream_follow_up m r fu = stream_follow_up m r' fu := by
  cases fu <;> rfl

theorem eventActions_acc (m : String) (u : Upd) (l : List SEvent)
    (acc acc' : String) :
    eventActions m u l acc = eventActions m u l acc' := by
  induction l generalizing acc acc' with
  | nil => rfl
  | cons e rest ih =>
    cases e with
    | messageDelta c =>
      simp only [eventActions]
      exact congrArg _ (ih _ _)
    | messageCompleted fu =>
      simp only [eventActions]
      rw [stream_follow_up_resp m acc acc' fu, ih acc acc']
    | otherEvent =>
      simp only [eventActions]
      exact ih _ _

theorem eventActions_append_nc (m : String) (u : Upd) (l₁ l₂ : List SEvent)
    (acc acc₂ : String) (h : hasCompleted l₁ = false) :
    eventActions m u (l₁ ++ l₂) acc =
      ((primaryTexts l₁).map fun t => Act.push (some t)) ++
        eventActions m u l₂ acc₂ := by
  induction l₁ generalizing acc with
  | nil =>
    simpa [primaryTexts] using eventActions_acc m u l₂ acc acc₂
  | cons e rest ih =>
    cases e with
    | messageDelta c =>
      simp only [List.cons_append, eventActions, primaryTexts, List.map_append,
        List.append_assoc]
      exact congrArg _ (ih _ (by simpa [hasCompleted] using h))
    | messageCompleted fu =>
      simp [hasCompleted] at h
    | otherEvent =>
      simp only [List.cons_append, eventActions, primaryTexts]
      exact ih _ (by simpa [hasCompleted] using h)

theorem eventActions_nc (m : String) (u : Upd) (l : List SEvent) (acc : String)
    (h : hasCompleted l = false) :
    eventActions m u l acc = (primaryTexts l).map fun t => Act.push (some t) := by
  have h2 := eventActions_append_nc m u l [] acc acc h
  simpa [eventActions] using h2

theorem pushesOf_append (l₁ l₂ : List Act) :
    pushesOf (l₁ ++ l₂) = pushesOf l₁ ++ pushesOf l₂ := by
  induction l₁ with
  | nil => rfl
  | cons a t ih => cases a <;> simp [pushesOf, ih]

theorem donesOf_append (l₁ l₂ : List Act) :
    donesOf (l₁ ++ l₂) = donesOf l₁ ++ donesOf l₂ := by
  induction l₁ with
  | nil => rfl
  | cons a t ih => cases a <;> simp [donesOf, ih]

theorem gateWrites_append (l₁ l₂ : List Act) :
    gateWrites (l₁ ++ l₂) = gateWrites l₁ ++ gateWrites l₂ := by
  induction l₁ with
  | nil => rfl
  | cons a t ih => cases a <;> simp [gateWrites, ih]

theorem pushesOf_pushMap (l : List String) :
    pushesOf (l.map fun s => Act.push (some s)) = l.map some := by
  induction l with
  | nil => rfl
  | cons s t ih => simp [pushesOf, ih]

theorem donesOf_pushMap (l : List String) :
    donesOf (l.map fun s => Act.push (some s)) = [] := by
  induction l with
  | nil => rfl
  | cons s t ih => simp [donesOf, ih]

theorem gateWrites_pushMap (l : List String) :
    gateWrites (l.map fun s => Act.push (some s)) = [] := by
  induction l with
  | nil => rfl
  | cons s t ih => simp [gateWrites, ih]

theorem gateWrites_eventActions (m : String) (u : Upd) (l : List SEvent)
    (acc : String) : gateWrites (eventActions m u l acc) = [] := by
  induction l generalizing acc with
  | nil => rfl
  | cons e rest ih =>
    cases e with
    | messageDelta c =>
      simp [eventActions, gateWrites_append, gateWrites_pushMap, ih]
    | messageCompleted fu =>
      simp [eventActions, gateWrites_append, gateWrites_pushMap, gateWrites, ih]
    | otherEvent =>
      simp [eventActions, ih]

theorem runSched_reachable (s : List Sched) (c c' : Config)
    (h : runSched c s = some c') : Relation.ReflTransGen Step c c' := by
  induction s generalizing c with
  | nil =>
    simp only [runSched, Option.some.injEq] at h
    subst h
    exact Relation.ReflTransGen.refl
  | cons a rest ih =>
    cases a with
    | inbound m u p =>
      exact Relation.ReflTransGen.head (Step.inbound c m u p)
        (ih _ (by simpa [runSched] using h))
    | worker i =>
      rcases hg : c.threads[i]? with _ | t
      · simp [runSched, hg] at h
      · cases t with
        | nil => simp [runSched, hg] at h
        | cons a2 t2 =>
          refine Relation.ReflTransGen.head (Step.worker c i a2 t2 hg) (ih _ ?_)
          simpa [runSched, hg] using h

theorem stream_events_success (m : String) (u : Upd) (pre : List SEvent)
    (fu : FollowUp) (h : hasCompleted pre = false) :
    stream_events m u (Primary.stream (pre ++ [SEvent.messageCompleted fu]) none) =
    { pushes := some (primarySeparator m) :: (primaryTexts pre).map some ++
        (stream_follow_up m (concatAll (primaryTexts pre)) fu).map some ++ [none],
      done := [u] } := by
  have hea := eventActions_append_nc m u pre [SEvent.messageCompleted fu] ""
    (concatAll (primaryTexts pre)) h
  simp [stream_events, workerProgram, hea, eventActions, pushesOf, donesOf,
    pushesOf_append, donesOf_append, pushesOf_pushMap, donesOf_pushMap]

theorem drainLoop_nostop_append (g : Gui) (q1 q2 : List (Option String))
    (h : ∀ x ∈ q1, isStopMsg x = false) :
    (drainLoop g (q1 ++ q2)).1 = (drainLoop g q2).1 := by
  induction q1 with
  | nil => rfl
  | cons x t ih =>
    have hx : isStopMsg x = false := h x (by simp)
    have ht : ∀ y ∈ t, isStopMsg y = false := fun y hy => h y (by simp [hy])
    cases x with
    | none => simp [isStopMsg] at hx
    | some m =>
      have hm : pyStartsWith m "An error occurred:" = false := by
        simpa [isStopMsg] using hx
      simp [drainLoop, hm, ih ht]

theorem listPrefixEq_cons_ne (p c : Char) (ps cs : List Char)
    (h : (p == c) = false) :
    listPrefixEq (p :: ps) (c :: cs) = false := by
  simp [listPrefixEq, h]

theorem followUpError_not_error_chunk (e : String) :
    pyStartsWith (followUpErrorChunk e) "An error occurred:" = false := by
  have h0 : "\nAn error occurred while generating follow-up: ".data =
      '\n' :: "An error occurred while generating follow-up: ".data := rfl
  have hdata : (followUpErrorChunk e).data =
      '\n' :: ("An error occurred while generating follow-up: ".data ++
        (e.data ++ ['\n'])) := by
    simp [followUpErrorChunk, String.data_append, h0]
  have h1 : "An error occurred:".data = 'A' :: "n error occurred:".data := rfl
  show listPrefixEq "An error occurred:".data (followUpErrorChunk e).data = false
  rw [hdata, h1]
  exact listPrefixEq_cons_ne _ _ _ _ (by decide)

/-! Claim theorems. -/

/-- C1: the claimed mutual exclusion FAILS on the code.  A reachable
configuration has two admitted workers that both still hold the gate, and
the message queue already interleaves chunks of both workers (the second
worker's separator sits between two pushes of the first), i.e. two
StreamWorkers were actively producing at once.  The flag is set inside the
worker thread (line 62), after the dispatcher's check (line 256), so two
inbound messages dispatched before the first worker runs both pass the
gate. -/
theorem gate_race_two_producers :
    ∃ c, Reachable c ∧ 2 ≤ gateHolders c ∧
      c.msgq = [some (primarySeparator "q1"), some (primarySeparator "q2"),
        some "a"] := by
  refine ⟨raceConfig, ?_, by decide, by decide⟩
  exact runSched_reachable raceSched initConfig raceConfig (by decide)

/-- C2: order preservation for a single successful request with deltas
`["The", " answer", " is 42"]`: the queue receives exactly the primary
separator, the three text chunks in order, the follow-up separator, the
follow-up chunks in stream order, and the `None` sentinel last; the done
signal is enqueued for the originator. -/
theorem single_request_order_preserved (m : String) (u : Upd)
    (fuChunks : List (Option String)) :
    stream_events m u (Primary.stream
      [SEvent.messageDelta [Block.text "The"],
       SEvent.messageDelta [Block.text " answer"],
       SEvent.messageDelta [Block.text " is 42"],
       SEvent.messageCompleted (FollowUp.stream fuChunks none)] none) =
    { pushes := [some (primarySeparator m), some "The", some " answer",
        some " is 42", some followUpSeparator] ++
        (chunkPushes fuChunks).map some ++ [none],
      done := [u] } := by
  have h := stream_events_success m u
    [SEvent.messageDelta [Block.text "The"],
     SEvent.messageDelta [Block.text " answer"],
     SEvent.messageDelta [Block.text " is 42"]]
    (FollowUp.stream fuChunks none) rfl
  simpa [primaryTexts, deltaTexts, stream_follow_up, concatAll] using h

/-- C3 counterexample: a primary stream that raises AFTER the
`thread.message.completed` event was processed.  The code has already
pushed the `None` sentinel and enqueued the done signal before the error
chunk, so "pushes no EndOfStream and enqueues no CompletionSignal" is
false for this failing request. -/
theorem primary_error_after_completed_cex :
    stream_events "q" 0 (Primary.stream
        [SEvent.messageCompleted (FollowUp.stream [] none)] (some "boom")) =
    { pushes := [some (primarySeparator "q"), some followUpSeparator, none,
        some (errorChunk "boom")],
      done := [0] } := by decide

/-- C3 amended: for every request whose primary streaming call fails
before any `thread.message.completed` event has been processed (exception
at stream setup, or mid-iteration with no completed event among the
processed ones), the worker pushes an error chunk (as the last queue
entry), pushes no `None` sentinel, and enqueues nothing on `done_queue`. -/
theorem primary_error_no_signal (m : String) (u : Upd) (events : List SEvent)
    (e : String) (h : hasCompleted events = false) :
    ((stream_events m u (Primary.stream events (some e))).done = [] ∧
      Option.none ∉ (stream_events m u (Primary.stream events (some e))).pushes ∧
      (stream_events m u (Primary.stream events (some e))).pushes.getLast? =
        some (some (errorChunk e))) ∧
    ((stream_events m u (Primary.createErr e)).done = [] ∧
      Option.none ∉ (stream_events m u (Primary.createErr e)).pushes ∧
      (stream_events m u (Primary.createErr e)).pushes =
        [some (errorChunk e)]) := by
  have he := eventActions_nc m u events "" h
  have hp : (stream_events m u (Primary.stream events (some e))).pushes =
      some (primarySeparator m) :: (primaryTexts events).map some ++
        [some (errorChunk e)] := by
    simp [stream_events, workerProgram, he, pushesOf, pushesOf_append,
      pushesOf_pushMap]
  have hd : (stream_events m u (Primary.stream events (some e))).done = [] := by
    simp [stream_events, workerProgram, he, donesOf, donesOf_append,
      donesOf_pushMap]
  refine ⟨⟨hd, ?_, ?_⟩, rfl, by simp [stream_events, workerProgram, pushesOf,
    donesOf], rfl⟩
  · rw [hp]
    simp
  · rw [hp]
    have hsplit : some (primarySeparator m) :: (primaryTexts events).map some ++
        [some (errorChunk e)] =
        (some (primarySeparator m) :: (primaryTexts events).map some) ++
          [some (errorChunk e)] := rfl
    rw [hsplit, List.getLast?_concat]

/-- C3 witness: the amended theorem applied at a concrete failing
request. -/
theorem primary_error_no_signal_wit :
    ((stream_events "q" 5 (Primary.stream [] (some "boom"))).done = [] ∧
      Option.none ∉ (stream_events "q" 5 (Primary.stream [] (some "boom"))).pushes ∧
      (stream_events "q" 5 (Primary.stream [] (some "boom"))).pushes.getLast? =
        some (some (errorChunk "boom"))) ∧
    ((stream_events "q" 5 (Primary.createErr "boom")).done = [] ∧
      Option.none ∉ (stream_events "q" 5 (Primary.createErr "boom")).pushes ∧
      (stream_events "q" 5 (Primary.createErr "boom")).pushes =
        [some (errorChunk "boom")]) :=
  primary_error_no_signal "q" 5 [] "boom" rfl

/-- C4: follow-up failure containment.  When the secondary call fails
(mid-stream here; the create-failure shape is the second conjunct),
`stream_follow_up` pushes its separator, the chunks received so far, and
exactly one trailing error chunk, and returns normally; the enclosing
primary request still pushes the `None` sentinel after all follow-up
output and enqueues exactly one done signal for the originator. -/
theorem follow_up_failure_contained (m : String) (u : Upd) (pre : List SEvent)
    (chunks : List (Option String)) (e : String) (resp : String)
    (h : hasCompleted pre = false) :
    stream_follow_up m resp (FollowUp.stream chunks (some e)) =
      followUpSeparator :: chunkPushes chunks ++ [followUpErrorChunk e] ∧
    stream_follow_up m resp (FollowUp.createErr e) =
      [followUpSeparator, followUpErrorChunk e] ∧
    stream_events m u (Primary.stream
        (pre ++ [SEvent.messageCompleted (FollowUp.stream chunks (some e))])
        none) =
      { pushes := some (primarySeparator m) :: (primaryTexts pre).map some ++
          some followUpSeparator :: (chunkPushes chunks).map some ++
          [some (followUpErrorChunk e), none],
        done := [u] } := by
  refine ⟨rfl, rfl, ?_⟩
  have h2 := stream_events_success m u pre (FollowUp.stream chunks (some e)) h
  simpa [stream_follow_up] using h2

/-- C4 witness: the theorem applied at a concrete failing follow-up. -/
theorem follow_up_failure_contained_wit :
    stream_follow_up "q" "resp" (FollowUp.stream [some "c"] (some "err")) =
      followUpSeparator :: chunkPushes [some "c"] ++ [followUpErrorChunk "err"] ∧
    stream_follow_up "q" "resp" (FollowUp.createErr "err") =
      [followUpSeparator, followUpErrorChunk "err"] ∧
    stream_events "q" 5 (Primary.stream
        [SEvent.messageCompleted (FollowUp.stream [some "c"] (some "err"))]
        none) =
      { pushes := some (primarySeparator "q") :: (primaryTexts []).map some ++
          some followUpSeparator :: (chunkPushes [some "c"]).map some ++
          [some (followUpErrorChunk "err"), none],
        done := [5] } := by
  have h := follow_up_failure_contained "q" 5 [] [some "c"] "err" "resp" rfl
  simpa using h

/-- C5: on every exit path of `stream_events` — normal completion,
primary-stream error, follow-up error — the gate writes of the worker's
trace are exactly `[set-true, set-false]`: the release happens exactly
once, as the trace's final action, so after any run the gate is not
held. -/
theorem stream_events_gate_release (m : String) (u : Upd) (p : Primary) :
    ∃ body, workerProgram m u p =
        Act.setGate true :: body ++ [Act.setGate false] ∧
      gateWrites body = [] ∧
      gateWrites (workerProgram m u p) = [true, false] := by
  cases p with
  | createErr e =>
    exact ⟨[Act.push (some (errorChunk e))], rfl, rfl, rfl⟩
  | stream events midErr =>
    cases midErr with
    | none =>
      refine ⟨Act.push (some (primarySeparator m)) ::
        eventActions m u events "" ++ [], rfl, ?_, ?_⟩
      · simp [gateWrites, gateWrites_append, gateWrites_eventActions]
      · simp [workerProgram, gateWrites, gateWrites_append,
          gateWrites_eventActions]
    | some e =>
      refine ⟨Act.push (some (primarySeparator m)) ::
        eventActions m u events "" ++ [Act.push (some (errorChunk e))],
        rfl, ?_, ?_⟩
      · simp [gateWrites, gateWrites_append, gateWrites_eventActions]
      · simp [workerProgram, gateWrites, gateWrites_append,
          gateWrites_eventActions]

/-- C6: an inbound free-text message dispatched while `is_processing` is
set gets only the "still processing" reply: no worker thread is spawned,
nothing is pushed on `message_queue` or `done_queue`, and the message
itself is dropped (nothing of it is recorded anywhere). -/
theorem busy_gate_rejects (c : Config) (m : String) (u : Upd) (p : Primary)
    (h : c.gate = true) :
    dispatch c m u p =
      { c with replies := c.replies ++ [Reply.stillProcessing u] } ∧
    (dispatch c m u p).threads = c.threads ∧
    (dispatch c m u p).msgq = c.msgq ∧
    (dispatch c m u p).doneq = c.doneq := by
  simp [dispatch, h]

/-- C6 witness: rejection at a concrete busy configuration. -/
theorem busy_gate_rejects_wit :
    dispatch busyConfig "hi" 7 (Primary.createErr "x") =
      { gate := true, msgq := [], doneq := [],
        replies := [Reply.stillProcessing 7], threads := [] } :=
  (busy_gate_rejects busyConfig "hi" 7 (Primary.createErr "x") rfl).1

/-- C7 counterexample: a drain pass stopped by a primary-error chunk even
though no `EndOfStream` sentinel is anywhere in the queue — `[some "tail"]`
is left undrained, contradicting "drains all currently available events
except that EndOfStream stops the pass". -/
theorem drain_stops_short_cex :
    Option.none ∉ [some (errorChunk "x"), some "tail"] ∧
    (update_gui aliveGui
        [some (errorChunk "x"), some "tail"]).remaining = [some "tail"] := by
  decide

/-- C7 amended: a polling cycle drains all currently available events,
except that EndOfStream (`None`) OR a message starting with
`"An error occurred:"` stops the current drain pass (leaving the rest of
the queue for the next cycle); the next cycle is rescheduled at 100 ms iff
the underlying window still exists. -/
theorem drain_pass_semantics (g : Gui) (q1 : List (Option String))
    (s : Option String) (q2 : List (Option String))
    (h1 : ∀ x ∈ q1, isStopMsg x = false) (h2 : isStopMsg s = true) :
    (update_gui g (q1 ++ s :: q2)).remaining = q2 ∧
    (update_gui g q1).remaining = [] ∧
    (update_gui g (q1 ++ s :: q2)).reschedule =
      (if rootAlive g then some 100 else none) := by
  have hstop : (drainLoop g (s :: q2)).1 = q2 := by
    cases s with
    | none => rfl
    | some msg =>
      have hm : pyStartsWith msg "An error occurred:" = true := by
        simpa [isStopMsg] using h2
      simp [drainLoop, hm]
  refine ⟨?_, ?_, rfl⟩
  · show (drainLoop g (q1 ++ s :: q2)).1 = q2
    rw [drainLoop_nostop_append g q1 (s :: q2) h1, hstop]
  · have h3 := drainLoop_nostop_append g q1 [] h1
    simpa [drainLoop, update_gui] using h3

/-- C7 witness: the amended drain semantics at a concrete queue. -/
theorem drain_pass_semantics_wit :
    (update_gui aliveGui
        ([some "a"] ++ none :: [some "b"])).remaining = [some "b"] ∧
    (update_gui aliveGui
        [some "a"]).remaining = [] ∧
    (update_gui aliveGui
        ([some "a"] ++ none :: [some "b"])).reschedule =
      (if rootAlive aliveGui
        then some 100 else none) :=
  drain_pass_semantics aliveGui
    [some "a"] none [some "b"] (by decide) rfl

/-- C8: a drained message starting with exactly `"An error occurred:"` is
rendered (window alive) as `f"\nERROR: {msg}\n"` and terminates the drain
pass, leaving every later queued event undrained until the next 100 ms
cycle. -/
theorem error_chunk_stops_drain (g : Gui) (msg : String)
    (rest : List (Option String))
    (h1 : pyStartsWith msg "An error occurred:" = true)
    (h2 : canRender g = true) :
    update_gui g (some msg :: rest) =
      { remaining := rest, renders := [Render.errorText msg],
        reschedule := if rootAlive g then some 100 else none } ∧
    insertedText (Render.errorText msg) = "\nERROR: " ++ msg ++ "\n" := by
  constructor
  · simp [update_gui, drainLoop, h1, h2]
  · rfl

/-- C8 witness: the early stop at a concrete error chunk. -/
theorem error_chunk_stops_drain_wit :
    update_gui aliveGui
        (some (errorChunk "x") :: [some "later"]) =
      { remaining := [some "later"],
        renders := [Render.errorText (errorChunk "x")],
        reschedule := if rootAlive aliveGui
          then some 100 else none } ∧
    insertedText (Render.errorText (errorChunk "x")) =
      "\nERROR: " ++ errorChunk "x" ++ "\n" :=
  error_chunk_stops_drain aliveGui
    (errorChunk "x") [some "later"] (by decide) (by decide)

/-- C9: the follow-up error chunk starts with a newline, so it fails the
`startswith("An error occurred:")` test for EVERY error description; it is
therefore rendered as an ordinary text chunk (no ERROR prefix, given that
the description does not contain the separator substrings) and the drain
pass continues past it. -/
theorem follow_up_error_plain_render (g : Gui) (e : String)
    (rest : List (Option String)) (h1 : canRender g = true)
    (h2 : isSeparatorStyled (followUpErrorChunk e) = false) :
    pyStartsWith (followUpErrorChunk e) "An error occurred:" = false ∧
    update_gui g (some (followUpErrorChunk e) :: rest) =
      { remaining := (update_gui g rest).remaining,
        renders := Render.plainText (followUpErrorChunk e) ::
          (update_gui g rest).renders,
        reschedule := if rootAlive g then some 100 else none } := by
  refine ⟨followUpError_not_error_chunk e, ?_⟩
  simp [update_gui, drainLoop, followUpError_not_error_chunk e, h1, h2]

/-- C9 witness: a concrete follow-up error chunk passes through the drain
loop as plain text. -/
theorem follow_up_error_plain_render_wit :
    pyStartsWith (followUpErrorChunk "boom") "An error occurred:" = false ∧
    update_gui aliveGui
        (some (followUpErrorChunk "boom") :: []) =
      { remaining := (update_gui aliveGui
          []).remaining,
        renders := Render.plainText (followUpErrorChunk "boom") ::
          (update_gui aliveGui []).renders,
        reschedule := if rootAlive aliveGui
          then some 100 else none } :=
  follow_up_error_plain_render aliveGui
    "boom" [] (by decide) (by decide)

/-- C10 counterexample: a drained message that contains the substring
`"Answers for"` but starts with `"An error occurred:"` is rendered with
the ERROR treatment (and stops the pass), not with the separator style —
so "any message containing the substring is rendered separator-styled" is
false as stated. -/
theorem separator_substring_cex :
    isSeparatorStyled "An error occurred: Answers for x" = true ∧
    update_gui aliveGui
        [some "An error occurred: Answers for x"] =
      { remaining := [],
        renders := [Render.errorText "An error occurred: Answers for x"],
        reschedule := some 100 } := by
  decide

/-- C10 amended: any drained non-sentinel message that does NOT start with
`"An error occurred:"` and whose text contains `"Answers for"` or
`"Possible Follow-up Questions and Answers"` anywhere is rendered (window
alive) with the separator style and auto-scroll, the drain pass
continuing — including an ordinary text chunk from the completion stream
that happens to contain those words. -/
theorem separator_substring_render (g : Gui) (msg : String)
    (rest : List (Option String)) (h1 : canRender g = true)
    (h2 : pyStartsWith msg "An error occurred:" = false)
    (h3 : isSeparatorStyled msg = true) :
    update_gui g (some msg :: rest) =
      { remaining := (update_gui g rest).remaining,
        renders := Render.separatorTagged msg :: (update_gui g rest).renders,
        reschedule := if rootAlive g then some 100 else none } := by
  simp [update_gui, drainLoop, h1, h2, h3]

/-- C10 witness: an ordinary text chunk containing `"Answers for"` gets
the separator rendering. -/
theorem separator_substring_render_wit :
    update_gui aliveGui
        (some "chunk with Answers for inside" :: []) =
      { remaining := (update_gui aliveGui
          []).remaining,
        renders := Render.separatorTagged "chunk with Answers for inside" ::
          (update_gui aliveGui []).renders,
        reschedule := if rootAlive aliveGui
          then some 100 else none } :=
  separator_substring_render aliveGui
    "chunk with Answers for inside" [] (by decide) (by decide) (by decide)
